import Mathlib

/-!
Verification of the C chat client (`chat_client.c`): a shallow embedding of
the context data model, the chunked-stream token parser, the worker request
processing, and the public API, with theorems checking the documented
properties against the embedded code.

Modelling conventions:
  - C strings (`char*`) that may be NULL become `Option String`; the NULL
    context handle becomes `Option ChatContext`.
  - Callback function pointers become `Option Nat` (an opaque handle, `none`
    for NULL); callback invocations are recorded in an event trace.
  - Heap allocation is assumed to succeed except where a claim depends on the
    failure path (`chat_context_new`, which takes explicit success flags).
  - The worker thread runs concurrently in C but all shared state is guarded
    by one mutex; a single request is modelled as the sequential composition
    of the submit step and the worker body, with the network modelled as an
    explicit outcome (connect failure, send failure, or a byte stream).
-/

/-- Message in conversation history (struct `chat_message_t`). -/
structure ChatMessage where
  role : String
  content : String
deriving DecidableEq, Repr

/-- Events observable by the caller: buffer/accumulator writes and callback
invocations, in the order they happen on the worker thread. -/
inductive ChatEvent where
  | appendResp (t : String)
  | pushTok (t : String)
  | tokenCb (t : String)
  | doneCb (resp : Option String)
  | errorCb (msg : String)
deriving DecidableEq, Repr

/-- Chat context (struct `chat_context`). The pthread fields are represented
by `threadStarted` and `shutdown`; the token linked list by a `List String`;
`full_response`/`response_len` by an `Option String` (NULL = `none`). -/
structure ChatContext where
  host : String
  port : Int
  model : String
  timeout : Int
  messages : List ChatMessage
  threadStarted : Bool
  pendingMessage : Option String
  onToken : Option Nat
  onDone : Option Nat
  onError : Option Nat
  userData : Nat
  tokenBuffer : List String
  fullResponse : Option String
  errorMessage : Option String
  isDone : Bool
  shutdown : Bool
deriving DecidableEq, Repr

/-- Internal `add_message`: append a role/content pair to history. -/
def add_message (ctx : ChatContext) (role content : String) : ChatContext :=
  { ctx with messages := ctx.messages ++ [⟨role, content⟩] }

/-- Internal `read_line` loop body: read characters until newline, EOF or the
buffer limit, dropping carriage returns. Returns the C result (`-1` on EOF
with nothing read, else the line length), the line, and the unread input. -/
def read_line_go (maxLen : Nat) : List Char → List Char → Int × String × List Char
  | input, acc =>
    if acc.length < maxLen - 1 then
      match input with
      | [] =>
        if acc.length > 0 then ((acc.length : Int), String.mk acc, [])
        else (-1, "", [])
      | c :: rest =>
        if c = '\n' then ((acc.length : Int), String.mk acc, rest)
        else if c = '\r' then read_line_go maxLen rest acc
        else read_line_go maxLen rest (acc ++ [c])
    else ((acc.length : Int), String.mk acc, input)

/-- Internal `read_line` over a modelled socket: the socket's remaining bytes
are a `List Char`, and EOF/timeout is the end of the list. -/
def read_line (maxLen : Nat) (input : List Char) : Int × String × List Char :=
  read_line_go maxLen input []

/-- Header-skipping loop of `stream_response`: discard lines while `read_line`
returns a positive length; stop at an empty line or EOF. -/
def skip_headers : Nat → List Char → List Char
  | 0, input => input
  | fuel + 1, input =>
    let rl := read_line 8192 input
    if rl.1 > 0 then skip_headers fuel rl.2.2 else rl.2.2

/-- Hexadecimal-digit test used by the chunk-size heuristic in
`stream_response` (`0-9`, `a-f`, `A-F`). -/
def is_hex_digit (c : Char) : Bool :=
  (decide ('0' ≤ c) && decide (c ≤ '9'))
    || (decide ('a' ≤ c) && decide (c ≤ 'f'))
    || (decide ('A' ≤ c) && decide (c ≤ 'F'))

/-- JSON object tree, as produced by the external cJSON decode capability. -/
inductive Json where
  | null
  | bool (b : Bool)
  | num (raw : String)
  | str (s : String)
  | arr (xs : List Json)
  | obj (fields : List (String × Json))

/-- Escape decoding for JSON string literals. -/
def json_unescape (c : Char) : Option Char :=
  if c = '"' then some '"'
  else if c = '\\' then some '\\'
  else if c = '/' then some '/'
  else if c = 'n' then some '\n'
  else if c = 't' then some '\t'
  else if c = 'r' then some '\r'
  else if c = 'b' then some (Char.ofNat 8)
  else if c = 'f' then some (Char.ofNat 12)
  else none

/-- Body of a JSON string literal: characters up to the closing quote. -/
def parse_string_chars : List Char → Option (List Char × List Char)
  | [] => none
  | '"' :: rest => some ([], rest)
  | '\\' :: c :: rest => do
    let ec ← json_unescape c
    let (s, r) ← parse_string_chars rest
    pure (ec :: s, r)
  | c :: rest => do
    let (s, r) ← parse_string_chars rest
    pure (c :: s, r)

/-- Whitespace skipping for the JSON reader. -/
def skip_ws : List Char → List Char
  | c :: rest =>
    if c = ' ' || c = '\t' || c = '\n' || c = '\r' then skip_ws rest
    else c :: rest
  | [] => []

/-- Character class of JSON number lexemes. -/
def is_num_char (c : Char) : Bool :=
  (decide ('0' ≤ c) && decide (c ≤ '9'))
    || c = '-' || c = '+' || c = '.' || c = 'e' || c = 'E'

mutual

/-- Recursive-descent JSON value reader (fuel-indexed for termination). -/
def parse_json_value : Nat → List Char → Option (Json × List Char)
  | 0, _ => none
  | fuel + 1, input =>
    match skip_ws input with
    | 'n' :: 'u' :: 'l' :: 'l' :: rest => some (Json.null, rest)
    | 't' :: 'r' :: 'u' :: 'e' :: rest => some (Json.bool true, rest)
    | 'f' :: 'a' :: 'l' :: 's' :: 'e' :: rest => some (Json.bool false, rest)
    | '"' :: rest => do
      let (s, r) ← parse_string_chars rest
      pure (Json.str (String.mk s), r)
    | Char.ofNat 123 :: rest =>
      (match skip_ws rest with
       | Char.ofNat 125 :: r2 => some (Json.obj [], r2)
       | r1 => do
         let (fs, r2) ← parse_json_members fuel r1
         pure (Json.obj fs, r2))
    | '[' :: rest =>
      (match skip_ws rest with
       | ']' :: r2 => some (Json.arr [], r2)
       | r1 => do
         let (xs, r2) ← parse_json_elems fuel r1
         pure (Json.arr xs, r2))
    | c :: rest =>
      if is_num_char c then
        some (Json.num (String.mk (c :: rest.takeWhile is_num_char)),
              rest.dropWhile is_num_char)
      else none
    | [] => none

/-- Members of a JSON object after the opening brace (first key onward). -/
def parse_json_members : Nat → List Char → Option (List (String × Json) × List Char)
  | 0, _ => none
  | fuel + 1, input => do
    match skip_ws input with
    | '"' :: rest =>
      let (k, r1) ← parse_string_chars rest
      match skip_ws r1 with
      | ':' :: r2 => do
        let (v, r3) ← parse_json_value fuel r2
        match skip_ws r3 with
        | ',' :: r4 => do
          let (fs, r5) ← parse_json_members fuel r4
          pure ((String.mk k, v) :: fs, r5)
        | Char.ofNat 125 :: r4 => pure ([(String.mk k, v)], r4)
        | _ => none
      | _ => none
    | _ => none

/-- Elements of a JSON array after the opening bracket (first element onward). -/
def parse_json_elems : Nat → List Char → Option (List Json × List Char)
  | 0, _ => none
  | fuel + 1, input => do
    let (v, r1) ← parse_json_value fuel input
    match skip_ws r1 with
    | ',' :: r2 => do
      let (xs, r3) ← parse_json_elems fuel r2
      pure (v :: xs, r3)
    | ']' :: r2 => pure ([v], r2)
    | _ => none

end

/-- Modelled from the spec: the JSON decode primitive (`cJSON_Parse`) is an
external library capability ("decode text to an object tree"), outside the
repository's core sources; trailing bytes after one value are ignored, and a
malformed text decodes to nothing. -/
def cJSON_Parse (text : String) : Option Json :=
  (parse_json_value (text.data.length + 1) text.data).map (fun p => p.1)

/-- Modelled from the spec: the typed field-access capability
(`cJSON_GetObjectItemCaseSensitive`); nothing on a non-object or a missing
key, else the first binding of the key. -/
def jsonGet (j : Json) (key : String) : Option Json :=
  match j with
  | Json.obj fields => (fields.find? (fun f => f.1 = key)).map (fun f => f.2)
  | _ => none

/-- Modelled from the spec: `cJSON_IsTrue`, true exactly on the JSON literal
`true` (and false on a NULL item). -/
def cJSON_IsTrue : Option Json → Bool
  | some (Json.bool true) => true
  | _ => false

/-- Internal `parse_token_from_json`: decode one response line, report the
`done` flag, and extract `message.content` when it is a non-empty string.
Note the C sets `*done` before looking up `message`, so a line with `done`
but no `message` still stops the stream. -/
def parse_token_from_json (line : String) : Option String × Bool :=
  match cJSON_Parse line with
  | none => (none, false)
  | some root =>
    match jsonGet root "message" with
    | none => (none, cJSON_IsTrue (jsonGet root "done"))
    | some message =>
      match jsonGet message "content" with
      | some (Json.str s) =>
        if s.data.length > 0 then (some s, cJSON_IsTrue (jsonGet root "done"))
        else (none, cJSON_IsTrue (jsonGet root "done"))
      | _ => (none, cJSON_IsTrue (jsonGet root "done"))

/-- Per-token processing in `stream_response`: append to the accumulator,
push onto the token buffer, and invoke `on_token` when it is set — in that
order, all before the next token is read. -/
def process_token (ctx : ChatContext) (t : String) : ChatContext × List ChatEvent :=
  ({ ctx with
      fullResponse := some (ctx.fullResponse.getD "" ++ t),
      tokenBuffer := ctx.tokenBuffer ++ [t] },
   [ChatEvent.appendResp t, ChatEvent.pushTok t]
     ++ (if ctx.onToken.isSome then [ChatEvent.tokenCb t] else []))

/-- Body loop of `stream_response` after the header block: per line, skip
empty lines and short all-hex chunk-size lines, decode lines opening a JSON
object, emit the token if any, and stop when the `done` flag is set or the
input ends. Returns the updated context, the event trace, and unread input. -/
def stream_loop : Nat → List Char → ChatContext → ChatContext × List ChatEvent × List Char
  | 0, input, ctx => (ctx, [], input)
  | fuel + 1, input, ctx =>
    let rl := read_line 8192 input
    let r := rl.1
    let line := rl.2.1
    let rest := rl.2.2
    if r < 0 then (ctx, [], rest)
    else if line.data.length = 0 then stream_loop fuel rest ctx
    else if line.data.all is_hex_digit ∧ line.data.length < 8 then
      stream_loop fuel rest ctx
    else if line.data.head? = some (Char.ofNat 123) then
      let pd := parse_token_from_json line
      match pd.1 with
      | some t =>
        let pr := process_token ctx t
        if pd.2 then (pr.1, pr.2, rest)
        else
          let cont := stream_loop fuel rest pr.1
          (cont.1, pr.2 ++ cont.2.1, cont.2.2)
      | none =>
        if pd.2 then (ctx, [], rest)
        else stream_loop fuel rest ctx
    else stream_loop fuel rest ctx

/-- Internal `stream_response`: skip the HTTP header block, then run the body
loop. The fuel bounds are sufficient since every iteration consumes input. -/
def stream_response (input : List Char) (ctx : ChatContext) :
    ChatContext × List ChatEvent × List Char :=
  let body := skip_headers (input.length + 1) input
  stream_loop (body.length + 1) body ctx


/-- Network outcome of one request, as seen by the worker: request-body
serialization failure, TCP connect failure, HTTP send failure, or a
successful send followed by the given raw response bytes. -/
inductive NetResult where
  | buildFail
  | connectFail
  | sendFail
  | stream (bytes : List Char)
deriving DecidableEq, Repr

/-- Final history step of `worker_loop`: if the accumulated response is
non-NULL and non-empty, append it to history as an assistant message. -/
def finalize_response (ctx : ChatContext) : ChatContext :=
  match ctx.fullResponse with
  | some r => if r.data.isEmpty then ctx else add_message ctx "assistant" r
  | none => ctx

/-- Body of `worker_loop` for one dequeued request: clear the pending slot,
append the user message to history, then run the request against the given
network outcome — on build/connect/send failure set the error message, mark
done and fire `on_error`; on a streamed response parse it, append the
assistant message when non-empty, mark done and fire `on_done` with the
(possibly NULL) full response. Returns the context and the event trace. -/
def worker_process (net : NetResult) (ctx : ChatContext) : ChatContext × List ChatEvent :=
  match ctx.pendingMessage with
  | none => (ctx, [])
  | some msg =>
    let ctx1 := add_message { ctx with pendingMessage := none } "user" msg
    match net with
    | NetResult.buildFail =>
      ({ ctx1 with errorMessage := some "Failed to create request", isDone := true },
       if ctx1.onError.isSome then [ChatEvent.errorCb "Failed to create request"] else [])
    | NetResult.connectFail =>
      ({ ctx1 with errorMessage := some "Connection failed", isDone := true },
       if ctx1.onError.isSome then [ChatEvent.errorCb "Connection failed"] else [])
    | NetResult.sendFail =>
      ({ ctx1 with errorMessage := some "Send failed", isDone := true },
       if ctx1.onError.isSome then [ChatEvent.errorCb "Send failed"] else [])
    | NetResult.stream bytes =>
      let sr := stream_response bytes ctx1
      let ctx2 := { finalize_response sr.1 with isDone := true }
      (ctx2,
       sr.2.1 ++ (if ctx2.onDone.isSome then [ChatEvent.doneCb ctx2.fullResponse] else []))

/-- Context produced by `chat_context_new` on successful allocation: defaults
applied for NULL host/model and non-positive port, 60-second timeout, `is_done`
set (no request in flight), all other fields zeroed by `calloc`. -/
def fresh_context (threadOk : Bool) (host : Option String) (port : Int)
    (model : Option String) : ChatContext :=
  { host := host.getD "192.168.0.61",
    port := if port > 0 then port else 11434,
    model := model.getD "nemotron-3-nano",
    timeout := 60,
    messages := [],
    threadStarted := threadOk,
    pendingMessage := none,
    onToken := none, onDone := none, onError := none, userData := 0,
    tokenBuffer := [],
    fullResponse := none, errorMessage := none,
    isDone := true, shutdown := false }

/-- Public `chat_context_new`, with the two fallible effects explicit:
`allocOk` is whether `calloc` succeeds (NULL is returned exactly when it
does not), and `threadOk` is whether `pthread_create` succeeds (recorded in
`thread_started`; the context is returned either way). -/
def chat_context_new (allocOk threadOk : Bool) (host : Option String)
    (port : Int) (model : Option String) : Option ChatContext :=
  if allocOk then some (fresh_context threadOk host port model) else none

/-- Core of `chat_send_async` past the NULL guards: reject with `-1` while
the current request is not done; otherwise reset the accumulator, token
buffer and error, store the callbacks, publish the pending message, signal
the worker, and return `0`. -/
def chat_send_async_core (ctx : ChatContext) (message : String)
    (onToken onDone onError : Option Nat) (userData : Nat) : ChatContext × Int :=
  if ¬ ctx.isDone then (ctx, -1)
  else
    ({ ctx with
        isDone := false,
        fullResponse := none,
        errorMessage := none,
        tokenBuffer := [],
        onToken := onToken, onDone := onDone, onError := onError,
        userData := userData,
        pendingMessage := some message }, 0)

/-- Public `chat_send_async`: `-1` on a NULL context or message, else the
core submit step. -/
def chat_send_async (ctx : Option ChatContext) (message : Option String)
    (onToken onDone onError : Option Nat) (userData : Nat) :
    Option ChatContext × Int :=
  match ctx, message with
  | none, _ => (none, -1)
  | some c, none => (some c, -1)
  | some c, some msg =>
    let p := chat_send_async_core c msg onToken onDone onError userData
    (some p.1, p.2)

/-- Core of `chat_send_blocking` past the NULL guards: submit via the async
path (done and error callbacks NULL), and on success let the worker run the
request to its terminal state (the C busy-waits on `chat_is_done` at 10 ms
granularity; the sequential model runs the worker body in place), then
return a copy of the accumulated response, NULL on failure. -/
def chat_send_blocking_core (ctx : ChatContext) (message : String)
    (onToken : Option Nat) (net : NetResult) : ChatContext × Option String :=
  let p := chat_send_async_core ctx message onToken none none 0
  if p.2 < 0 then (p.1, none)
  else
    let w := worker_process net p.1
    (w.1, w.1.fullResponse)

/-- Public `chat_send_blocking`: NULL on a NULL context or message, else the
core blocking call. -/
def chat_send_blocking (ctx : Option ChatContext) (message : Option String)
    (onToken : Option Nat) (net : NetResult) :
    Option ChatContext × Option String :=
  match ctx, message with
  | none, _ => (none, none)
  | some c, none => (some c, none)
  | some c, some msg =>
    let p := chat_send_blocking_core c msg onToken net
    (some p.1, p.2)

/-- Public `chat_poll_tokens`: NULL on a NULL context or a NULL count
pointer; with an empty buffer write count 0 and return NULL; otherwise hand
the whole buffered token list to the caller in emission order, clear the
buffer, and write the count. Returns (context, returned array, written
count), the last two `none` when NULL is returned/not written. -/
def chat_poll_tokens (ctx : Option ChatContext) (countValid : Bool) :
    Option ChatContext × Option (List String) × Option Nat :=
  match ctx, countValid with
  | none, _ => (none, none, none)
  | some c, false => (some c, none, none)
  | some c, true =>
    if c.tokenBuffer.length = 0 then (some c, none, some 0)
    else (some ({ c with tokenBuffer := [] }), some c.tokenBuffer,
          some c.tokenBuffer.length)

/-- Public `chat_is_done`: 1 on a NULL context, else the completion flag. -/
def chat_is_done (ctx : Option ChatContext) : Int :=
  match ctx with
  | none => 1
  | some c => if c.isDone then 1 else 0

/-- Public `chat_get_response`: NULL on a NULL context, else the accumulated
response pointer (NULL when no response). -/
def chat_get_response (ctx : Option ChatContext) : Option String :=
  match ctx with
  | none => none
  | some c => c.fullResponse

/-- Public `chat_get_error`: NULL on a NULL context, else the stored error
message pointer (NULL when no error). -/
def chat_get_error (ctx : Option ChatContext) : Option String :=
  match ctx with
  | none => none
  | some c => c.errorMessage

/-- Public `chat_clear`: empty the message history, touching nothing else. -/
def chat_clear (ctx : Option ChatContext) : Option ChatContext :=
  match ctx with
  | none => none
  | some c => some ({ c with messages := [] })

/-- Public `chat_get_message_count`: 0 on a NULL context, else the history
length. -/
def chat_get_message_count (ctx : Option ChatContext) : Int :=
  match ctx with
  | none => 0
  | some c => (c.messages.length : Int)

/-- Public `chat_get_message`: `-1` on a NULL context or NULL out-pointers or
an out-of-range index, else the role/content pair at the index and 0. -/
def chat_get_message (ctx : Option ChatContext) (index : Int)
    (outPtrsValid : Bool) : Option (String × String) × Int :=
  match ctx, outPtrsValid with
  | none, _ => (none, -1)
  | some _, false => (none, -1)
  | some c, true =>
    if index < 0 ∨ (c.messages.length : Int) ≤ index then (none, -1)
    else
      match c.messages.get? index.toNat with
      | some m => (some (m.role, m.content), 0)
      | none => (none, -1)

/-- Public `chat_add_message`: `-1` on a NULL context, role or content, else
append to history and return 0. -/
def chat_add_message (ctx : Option ChatContext) (role content : Option String) :
    Option ChatContext × Int :=
  match ctx, role, content with
  | none, _, _ => (none, -1)
  | some c, none, _ => (some c, -1)
  | some c, some _, none => (some c, -1)
  | some c, some r, some t => (some (add_message c r t), 0)

/-- Helper: tokens recorded as accumulator appends in an event trace. -/
def appendedTokens (tr : List ChatEvent) : List String :=
  tr.filterMap fun e =>
    match e with
    | ChatEvent.appendResp t => some t
    | _ => none

/-- Helper: tokens delivered to the `on_token` callback in an event trace. -/
def deliveredTokens (tr : List ChatEvent) : List String :=
  tr.filterMap fun e =>
    match e with
    | ChatEvent.tokenCb t => some t
    | _ => none

/-- Helper: concatenation of a token list in order. -/
def concatTokens (l : List String) : String :=
  l.foldr (fun a b => a ++ b) ""

/-- C1: calling `chat_send_async` while the current request has not reached a
terminal state returns the Busy failure `-1` and leaves all prior request
state (accumulated response, token buffer, error message, stored callbacks,
pending message — the whole context) unchanged; if no request is in flight it
resets the accumulator, token buffer and error, stores the callbacks,
publishes the pending message, and returns success `0`. -/
theorem chat_send_async_busy_or_submit (ctx : ChatContext) (msg : String)
    (t d e : Option Nat) (u : Nat) :
    (ctx.isDone = false →
      chat_send_async (some ctx) (some msg) t d e u = (some ctx, -1))
    ∧ (ctx.isDone = true →
      chat_send_async (some ctx) (some msg) t d e u =
        (some ({ ctx with
                  isDone := false,
                  fullResponse := none,
                  errorMessage := none,
                  tokenBuffer := [],
                  onToken := t, onDone := d, onError := e, userData := u,
                  pendingMessage := some msg }), 0)) := by
  constructor <;> intro h <;> simp [chat_send_async, chat_send_async_core, h]

/-- Witness for C1 at a busy context and at an idle context. -/
theorem chat_send_async_busy_or_submit_witness :
    chat_send_async
        (some ({ fresh_context true none 0 none with isDone := false }))
        (some "hi") none none none 0
      = (some ({ fresh_context true none 0 none with isDone := false }), -1)
    ∧ chat_send_async (some (fresh_context true none 0 none)) (some "hi")
        (some 1) (some 2) (some 3) 7
      = (some ({ fresh_context true none 0 none with
                  isDone := false,
                  fullResponse := none,
                  errorMessage := none,
                  tokenBuffer := [],
                  onToken := some 1, onDone := some 2, onError := some 3,
                  userData := 7,
                  pendingMessage := some "hi" }), 0) :=
  ⟨(chat_send_async_busy_or_submit
      ({ fresh_context true none 0 none with isDone := false })
      "hi" none none none 0).1 rfl,
   (chat_send_async_busy_or_submit (fresh_context true none 0 none)
      "hi" (some 1) (some 2) (some 3) 7).2 rfl⟩

/-- C6: `chat_poll_tokens` removes and returns all tokens buffered since the
last poll, in emission order, clearing the buffer and writing the count, and
a second poll with no new tokens in between returns empty (NULL, count 0). -/
theorem chat_poll_tokens_drain (ctx : ChatContext) :
    (chat_poll_tokens (some ctx) true).2.1.getD [] = ctx.tokenBuffer
    ∧ (chat_poll_tokens (some ctx) true).1 = some ({ ctx with tokenBuffer := [] })
    ∧ (chat_poll_tokens (some ctx) true).2.2 =
        some (if ctx.tokenBuffer.length = 0 then 0 else ctx.tokenBuffer.length)
    ∧ chat_poll_tokens ((chat_poll_tokens (some ctx) true).1) true
        = ((chat_poll_tokens (some ctx) true).1, none, some 0) := by
  by_cases h : ctx.tokenBuffer.length = 0
  · have hb : ctx.tokenBuffer = [] := List.length_eq_zero.mp h
    have he : ({ ctx with tokenBuffer := [] } : ChatContext) = ctx := by
      rw [← hb]
    refine ⟨?_, ?_, ?_, ?_⟩ <;> simp [chat_poll_tokens, hb, he]
  · refine ⟨?_, ?_, ?_, ?_⟩ <;> simp [chat_poll_tokens, h]

/-- C9: `chat_clear` empties the message history (count 0 afterwards) and
changes nothing else: the result is the same context with `messages := []`,
so response, token buffer, error, completion flag, pending message,
callbacks, and connection configuration are untouched. -/
theorem chat_clear_spec (ctx : ChatContext) :
    chat_clear (some ctx) = some ({ ctx with messages := [] })
    ∧ chat_get_message_count (chat_clear (some ctx)) = 0
    ∧ chat_get_response (chat_clear (some ctx)) = chat_get_response (some ctx)
    ∧ chat_get_error (chat_clear (some ctx)) = chat_get_error (some ctx)
    ∧ chat_is_done (chat_clear (some ctx)) = chat_is_done (some ctx)
    ∧ (chat_poll_tokens (chat_clear (some ctx)) true).2.1
        = (chat_poll_tokens (some ctx) true).2.1 := by
  refine ⟨rfl, ?_, rfl, rfl, rfl, ?_⟩
  · simp [chat_clear, chat_get_message_count]
  · by_cases h : ctx.tokenBuffer.length = 0 <;>
      simp [chat_clear, chat_poll_tokens, h]

/-- C10: every public operation called on a NULL context handle returns
safely with the documented failure or neutral value: `chat_is_done` 1,
`chat_get_message_count` 0, `chat_send_async`/`chat_get_message`/
`chat_add_message` -1, and `chat_poll_tokens`/`chat_send_blocking`/
`chat_get_response`/`chat_get_error` NULL. -/
theorem null_context_safety :
    chat_is_done none = 1
    ∧ chat_get_message_count none = 0
    ∧ chat_send_async none (some "m") none none none 0 = (none, -1)
    ∧ chat_get_message none 0 true = (none, -1)
    ∧ chat_add_message none (some "user") (some "hi") = (none, -1)
    ∧ chat_poll_tokens none true = (none, none, none)
    ∧ chat_send_blocking none (some "m") none NetResult.connectFail = (none, none)
    ∧ chat_get_response none = none
    ∧ chat_get_error none = none :=
  ⟨rfl, rfl, rfl, rfl, rfl, rfl, rfl, rfl, rfl⟩

/-- Counterexample to C8: with allocation succeeding and `pthread_create`
failing, `chat_context_new` still returns a context, and that context's
worker thread is not running (`thread_started` is false) — refuting "in
every case where a context is returned, its worker thread is running". -/
theorem chat_context_new_thread_fail_counterexample :
    (chat_context_new true false (some "localhost") 8080 (some "m")).isSome = true
    ∧ (chat_context_new true false (some "localhost") 8080 (some "m")).map
        ChatContext.threadStarted = some false :=
  ⟨rfl, rfl⟩

/-- C8 (amended): `chat_context_new` returns NULL exactly when allocation
fails; whenever allocation succeeds a context is returned, with defaults
applied (host, port 11434, model, timeout 60), no request in flight, and
`thread_started` recording whether worker startup succeeded — the worker
thread of a returned context need not be running. -/
theorem chat_context_new_spec (allocOk threadOk : Bool) (host : Option String)
    (port : Int) (model : Option String) :
    (chat_context_new allocOk threadOk host port model = none ↔ allocOk = false)
    ∧ (allocOk = true →
        chat_context_new allocOk threadOk host port model
          = some ({ host := host.getD "192.168.0.61",
                    port := if port > 0 then port else 11434,
                    model := model.getD "nemotron-3-nano",
                    timeout := 60,
                    messages := [],
                    threadStarted := threadOk,
                    pendingMessage := none,
                    onToken := none, onDone := none, onError := none,
                    userData := 0,
                    tokenBuffer := [],
                    fullResponse := none, errorMessage := none,
                    isDone := true, shutdown := false })) := by
  cases allocOk <;> simp [chat_context_new, fresh_context]

/-- Witness for C8 (amended) at both allocation outcomes. -/
theorem chat_context_new_spec_witness :
    (chat_context_new false true (some "h") 1 (some "m") = none)
    ∧ chat_context_new true false none 0 none
        = some ({ host := "192.168.0.61", port := 11434,
                  model := "nemotron-3-nano", timeout := 60,
                  messages := [], threadStarted := false,
                  pendingMessage := none,
                  onToken := none, onDone := none, onError := none,
                  userData := 0, tokenBuffer := [],
                  fullResponse := none, errorMessage := none,
                  isDone := true, shutdown := false }) :=
  ⟨(chat_context_new_spec false true (some "h") 1 (some "m")).1.mpr rfl,
   by
    have h := (chat_context_new_spec true false none 0 none).2 rfl
    simpa using h⟩

/-- Helper: the events `stream_response` produces for one token, in order —
the accumulator append, the buffer push, and the `on_token` delivery when a
callback is stored. -/
def tokenEvents (cb : Bool) (t : String) : List ChatEvent :=
  [ChatEvent.appendResp t, ChatEvent.pushTok t]
    ++ (if cb then [ChatEvent.tokenCb t] else [])

/-- Helper: appended tokens of a per-token-grouped trace are the tokens. -/
theorem appendedTokens_flatMap (cb : Bool) (l : List String) :
    appendedTokens (l.flatMap (tokenEvents cb)) = l := by
  induction l with
  | nil => rfl
  | cons t rest ih =>
    cases cb <;>
      simp [appendedTokens, tokenEvents, List.flatMap_cons,
            List.filterMap_append] <;>
      simpa [appendedTokens] using ih

/-- Helper: delivered tokens of a per-token-grouped trace with the callback
present are the tokens. -/
theorem deliveredTokens_flatMap (l : List String) :
    deliveredTokens (l.flatMap (tokenEvents true)) = l := by
  induction l with
  | nil => rfl
  | cons t rest ih =>
    simp [deliveredTokens, tokenEvents, List.flatMap_cons,
          List.filterMap_append]
    simpa [deliveredTokens] using ih

/-- Invariant relating a context before the body loop of `stream_response`
to the loop's result: for some token list, the trace is the per-token event
groups in order, every token is non-empty, the accumulator grows by exactly
the concatenation of the tokens (staying NULL only when no token came), the
token buffer grows by exactly the tokens, and nothing else changes. -/
def StreamInv (ctx : ChatContext) (res : ChatContext × List ChatEvent × List Char) : Prop :=
  ∃ (l : List String) (r : Option String),
    res.1 = { ctx with fullResponse := r, tokenBuffer := ctx.tokenBuffer ++ l }
    ∧ res.2.1 = l.flatMap (tokenEvents ctx.onToken.isSome)
    ∧ (∀ t ∈ l, t.data ≠ [])
    ∧ (r.getD "").data = (ctx.fullResponse.getD "").data ++ (concatTokens l).data
    ∧ (r = none ↔ ctx.fullResponse = none ∧ l = [])

/-- Helper: a loop exit that touches nothing satisfies the invariant. -/
theorem streamInv_nil (ctx : ChatContext) (left : List Char) :
    StreamInv ctx (ctx, [], left) := by
  refine ⟨[], ctx.fullResponse, ?_, rfl, ?_, ?_, ?_⟩ <;> simp [concatTokens]

/-- Helper: a token extracted by `parse_token_from_json` is non-empty (the C
checks `strlen(content) > 0` before emitting). -/
theorem parse_token_nonempty (line t : String)
    (h : (parse_token_from_json line).1 = some t) : t.data ≠ [] := by
  unfold parse_token_from_json at h
  split at h
  · simp at h
  · split at h
    · simp at h
    · split at h
      · split at h
        next hlen =>
          simp only [Prod.fst, Option.some.injEq] at h
          subst h
          exact List.ne_nil_of_length_pos hlen
        next => simp at h
      · simp at h

/-- Helper: concatenation of a token list unfolds one token at a time. -/
theorem concatTokens_cons (t : String) (l : List String) :
    concatTokens (t :: l) = t ++ concatTokens l := rfl

/-- Invariant of the body loop of `stream_response`, for every fuel, input
and starting context: the produced trace, accumulator growth, token-buffer
growth and state frame are as described by `StreamInv`. -/
theorem stream_loop_inv (fuel : Nat) :
    ∀ (input : List Char) (ctx : ChatContext),
      StreamInv ctx (stream_loop fuel input ctx) := by
  induction fuel with
  | zero => intro input ctx; exact streamInv_nil ctx input
  | succ n ih =>
    intro input ctx
    simp only [stream_loop]
    split
    · exact streamInv_nil ctx _
    · split
      · exact ih _ ctx
      · split
        · exact ih _ ctx
        · split
          · split
            next t heq =>
              split
              · refine ⟨[t], some (ctx.fullResponse.getD "" ++ t), ?_, ?_, ?_, ?_, ?_⟩
                · simp [process_token]
                · simp [process_token, tokenEvents]
                · intro x hx
                  rcases List.mem_singleton.mp hx with rfl
                  exact parse_token_nonempty _ _ heq
                · simp [concatTokens_cons, concatTokens, String.data_append]
                · simp
              · obtain ⟨l2, r2, hctx, htr, hne, hdata, hnone⟩ :=
                  ih _ (process_token ctx t).1
                refine ⟨t :: l2, r2, ?_, ?_, ?_, ?_, ?_⟩
                · rw [hctx]
                  simp [process_token, List.append_assoc]
                · rw [htr]
                  simp [process_token, tokenEvents, List.flatMap_cons]
                · intro x hx
                  rcases List.mem_cons.mp hx with rfl | hx2
                  · exact parse_token_nonempty _ _ heq
                  · exact hne x hx2
                · simp only [process_token] at hdata
                  rw [hdata]
                  simp [concatTokens_cons, String.data_append, List.append_assoc]
                · rw [hnone]
                  simp [process_token]
            next heq =>
              split
              · exact streamInv_nil ctx _
              · exact ih _ ctx
          · exact ih _ ctx

/-- Invariant of `stream_response` as a whole (headers skipped, then the
body loop). -/
theorem stream_response_inv (input : List Char) (ctx : ChatContext) :
    StreamInv ctx (stream_response input ctx) := by
  unfold stream_response
  exact stream_loop_inv _ _ ctx

/-- Helper: the assistant history entry the worker appends for a given final
accumulator value — nothing for NULL or empty, one assistant message else. -/
def assistantEntry (r : Option String) : List ChatMessage :=
  match r with
  | some s => if s.data.isEmpty then [] else [⟨"assistant", s⟩]
  | none => []

/-- Helper: `finalize_response` appends exactly `assistantEntry` of the
accumulator to history. -/
theorem finalize_response_eq (ctx : ChatContext) :
    finalize_response ctx
      = { ctx with messages := ctx.messages ++ assistantEntry ctx.fullResponse } := by
  obtain ⟨h1, h2, h3, h4, h5, h6, h7, h8, h9, h10, h11, h12, fr, h14, h15, h16⟩ := ctx
  rcases fr with _ | s
  · simp [finalize_response, assistantEntry]
  · by_cases hs : s.data.isEmpty <;>
      simp [finalize_response, assistantEntry, hs, add_message]

/-- Specification of the worker body on a streamed response: the pending
message is dequeued and appended to history as the user message, the stream
produces some list of non-empty tokens whose concatenation is the final
accumulator (NULL exactly when no token came), the token buffer receives the
tokens, an assistant entry is appended exactly when the accumulator is
non-empty, the request is marked done, and the trace is the per-token event
groups followed by the done callback when one is stored. -/
theorem worker_stream_spec (ctx : ChatContext) (msg : String) (bytes : List Char)
    (h : ctx.pendingMessage = some msg) :
    ∃ (l : List String) (r : Option String),
      (worker_process (NetResult.stream bytes) ctx).1
        = { ctx with
              pendingMessage := none,
              messages := (ctx.messages ++ [⟨"user", msg⟩]) ++ assistantEntry r,
              fullResponse := r,
              tokenBuffer := ctx.tokenBuffer ++ l,
              isDone := true }
      ∧ (worker_process (NetResult.stream bytes) ctx).2
        = l.flatMap (tokenEvents ctx.onToken.isSome)
          ++ (if ctx.onDone.isSome then [ChatEvent.doneCb r] else [])
      ∧ (∀ t ∈ l, t.data ≠ [])
      ∧ (r.getD "").data
          = (ctx.fullResponse.getD "").data ++ (concatTokens l).data
      ∧ (r = none ↔ ctx.fullResponse = none ∧ l = []) := by
  obtain ⟨l, r, hctx, htr, hne, hdata, hnone⟩ :=
    stream_response_inv bytes (add_message { ctx with pendingMessage := none } "user" msg)
  refine ⟨l, r, ?_, ?_, hne, ?_, ?_⟩
  · simp only [worker_process, h]
    rw [hctx, finalize_response_eq]
    simp [add_message]
  · simp only [worker_process, h]
    rw [hctx, htr, finalize_response_eq]
    simp [add_message]
  · simpa [add_message] using hdata
  · simpa [add_message] using hnone

/-- C2: for a request submitted with a token callback and answered by a
byte stream, the tokens delivered to `on_token`, concatenated in emission
order, are exactly the final accumulated response; the token buffer holds
exactly those tokens; and the trace is per-token groups — accumulator
append, buffer push, callback delivery — each complete before the next
token, followed only by the done callback. -/
theorem stream_tokens_concat (ctx : ChatContext) (msg : String) (cb u : Nat)
    (d e : Option Nat) (bytes : List Char) (h : ctx.isDone = true) :
    (worker_process (NetResult.stream bytes)
        (chat_send_async_core ctx msg (some cb) d e u).1).1.fullResponse.getD ""
      = concatTokens (deliveredTokens (worker_process (NetResult.stream bytes)
          (chat_send_async_core ctx msg (some cb) d e u).1).2)
    ∧ (worker_process (NetResult.stream bytes)
        (chat_send_async_core ctx msg (some cb) d e u).1).1.tokenBuffer
      = deliveredTokens (worker_process (NetResult.stream bytes)
          (chat_send_async_core ctx msg (some cb) d e u).1).2
    ∧ (worker_process (NetResult.stream bytes)
        (chat_send_async_core ctx msg (some cb) d e u).1).2
      = (deliveredTokens (worker_process (NetResult.stream bytes)
            (chat_send_async_core ctx msg (some cb) d e u).1).2).flatMap
          (tokenEvents true)
        ++ (if d.isSome then [ChatEvent.doneCb (worker_process
              (NetResult.stream bytes)
              (chat_send_async_core ctx msg (some cb) d e u).1).1.fullResponse]
            else []) := by
  have hsub : chat_send_async_core ctx msg (some cb) d e u
      = ({ ctx with
            isDone := false, fullResponse := none, errorMessage := none,
            tokenBuffer := [], onToken := some cb, onDone := d, onError := e,
            userData := u, pendingMessage := some msg }, 0) := by
    simp [chat_send_async_core, h]
  obtain ⟨l, r, hw1, hw2, hne, hdata, hnone⟩ :=
    worker_stream_spec (chat_send_async_core ctx msg (some cb) d e u).1 msg bytes
      (by rw [hsub])
  have hdeliv : deliveredTokens (worker_process (NetResult.stream bytes)
      (chat_send_async_core ctx msg (some cb) d e u).1).2 = l := by
    rw [hw2, hsub]
    simp only [deliveredTokens, List.filterMap_append]
    rw [show (({ ctx with
            isDone := false, fullResponse := none, errorMessage := none,
            tokenBuffer := [], onToken := some cb, onDone := d, onError := e,
            userData := u, pendingMessage := some msg } : ChatContext),
          (0 : Int)).1.onToken.isSome = true from rfl]
    have h2 : (deliveredTokens (l.flatMap (tokenEvents true))) = l :=
      deliveredTokens_flatMap l
    simp only [deliveredTokens] at h2
    rw [h2]
    rcases d.isSome <;> simp [deliveredTokens]
  refine ⟨?_, ?_, ?_⟩
  · rw [hdeliv, hw1]
    apply String.ext
    rw [hsub] at hdata
    simpa using hdata
  · rw [hdeliv, hw1, hsub]
    simp
  · rw [hdeliv, hw2, hw1, hsub]
    simp

/-- Synthetic byte stream of the parser test: an HTTP status line, a blank
line, then two newline-delimited JSON events, the second with `done` true. -/
def c3_input : String :=
  "HTTP/1.1 200 OK\r\n\r\n\x7b\"message\":\x7b\"content\":\"Hi\"\x7d,\"done\":false\x7d\n\x7b\"message\":\x7b\"content\":\"!\"\x7d,\"done\":true\x7d\n"

/-- Extra bytes appended after the done line, to observe that the stream
stops reading at the done line and leaves later bytes unread. -/
def c3_extra : String :=
  "\x7b\"message\":\x7b\"content\":\"X\"\x7d,\"done\":false\x7d\n"

/-- Fresh context with a token callback stored, as the worker sees it when
streaming begins. -/
def c3_ctx : ChatContext :=
  { fresh_context true none 0 none with onToken := some 1 }

set_option maxRecDepth 100000 in
set_option maxHeartbeats 1000000 in
/-- C3: feeding the streaming parser the exact test byte stream emits
exactly two tokens, "Hi" then "!", each fully processed (append, push,
deliver) in order, leaves the accumulated response "Hi!", and stops reading
at the line whose done flag is true — bytes after it stay unread. -/
theorem parser_two_token_stream :
    (stream_response c3_input.data c3_ctx).2.1
      = [ChatEvent.appendResp "Hi", ChatEvent.pushTok "Hi", ChatEvent.tokenCb "Hi",
         ChatEvent.appendResp "!", ChatEvent.pushTok "!", ChatEvent.tokenCb "!"]
    ∧ deliveredTokens (stream_response c3_input.data c3_ctx).2.1 = ["Hi", "!"]
    ∧ (stream_response c3_input.data c3_ctx).1.fullResponse = some "Hi!"
    ∧ (stream_response c3_input.data c3_ctx).1.tokenBuffer = ["Hi", "!"]
    ∧ (stream_response c3_input.data c3_ctx).2.2 = []
    ∧ (stream_response (c3_input.data ++ c3_extra.data) c3_ctx).2.2 = c3_extra.data
    ∧ deliveredTokens (stream_response (c3_input.data ++ c3_extra.data) c3_ctx).2.1
        = ["Hi", "!"]
    ∧ (stream_response (c3_input.data ++ c3_extra.data) c3_ctx).1.fullResponse
        = some "Hi!" := by
  decide

/-- Witness for C2 on the parser-test byte stream from a fresh context. -/
theorem stream_tokens_concat_witness :
    (fresh_context true none 0 none).isDone = true
    ∧ ((worker_process (NetResult.stream c3_input.data)
        (chat_send_async_core (fresh_context true none 0 none) "q"
          (some 1) (some 2) none 0).1).1.fullResponse.getD ""
      = concatTokens (deliveredTokens (worker_process (NetResult.stream c3_input.data)
          (chat_send_async_core (fresh_context true none 0 none) "q"
            (some 1) (some 2) none 0).1).2)
    ∧ (worker_process (NetResult.stream c3_input.data)
        (chat_send_async_core (fresh_context true none 0 none) "q"
          (some 1) (some 2) none 0).1).1.tokenBuffer
      = deliveredTokens (worker_process (NetResult.stream c3_input.data)
          (chat_send_async_core (fresh_context true none 0 none) "q"
            (some 1) (some 2) none 0).1).2
    ∧ (worker_process (NetResult.stream c3_input.data)
        (chat_send_async_core (fresh_context true none 0 none) "q"
          (some 1) (some 2) none 0).1).2
      = (deliveredTokens (worker_process (NetResult.stream c3_input.data)
            (chat_send_async_core (fresh_context true none 0 none) "q"
              (some 1) (some 2) none 0).1).2).flatMap (tokenEvents true)
        ++ (if (some 2 : Option Nat).isSome then
              [ChatEvent.doneCb (worker_process (NetResult.stream c3_input.data)
                (chat_send_async_core (fresh_context true none 0 none) "q"
                  (some 1) (some 2) none 0).1).1.fullResponse]
            else [])) :=
  ⟨rfl, stream_tokens_concat (fresh_context true none 0 none) "q" 1 0
      (some 2) none c3_input.data rfl⟩

/-- Helper: a hexadecimal digit is neither a newline nor a carriage return. -/
theorem is_hex_digit_not_ctrl (c : Char) (h : is_hex_digit c = true) :
    c ≠ '\n' ∧ c ≠ '\r' := by
  constructor <;> rintro rfl <;> simp [is_hex_digit] at h

/-- Helper: `read_line` on a line of plain characters followed by a newline
returns the line verbatim and leaves exactly the bytes after the newline. -/
theorem read_line_go_append (cs : List Char) (rest : List Char) :
    ∀ acc : List Char,
      (∀ c ∈ cs, c ≠ '\n' ∧ c ≠ '\r') →
      acc.length + cs.length < 8191 →
      read_line_go 8192 (cs ++ '\n' :: rest) acc
        = (((acc.length + cs.length : Nat) : Int), String.mk (acc ++ cs), rest) := by
  induction cs with
  | nil =>
    intro acc hn hlen
    rw [read_line_go.eq_def]
    dsimp only
    have h1 : acc.length < 8192 - 1 := by omega
    rw [if_pos h1]
    simp
  | cons c cs ih =>
    intro acc hn hlen
    have hc := hn c (List.mem_cons_self c cs)
    rw [read_line_go.eq_def]
    dsimp only
    have h1 : acc.length < 8192 - 1 := by
      simp [List.length_cons] at hlen
      omega
    rw [if_pos h1]
    simp only [List.cons_append]
    rw [if_neg hc.1, if_neg hc.2]
    have := ih (acc ++ [c]) (fun x hx => hn x (List.mem_cons_of_mem c hx))
      (by simp [List.length_cons] at hlen ⊢; omega)
    rw [this]
    simp [List.append_assoc]
    omega

/-- C4: any line after the HTTP header block made entirely of hexadecimal
digits and shorter than 8 characters is skipped by the body loop of
`stream_response` — no token is emitted, the context (accumulator included)
is untouched, and parsing continues with the bytes after the line. -/
theorem hex_chunk_line_skipped (s : String) (rest : List Char)
    (ctx : ChatContext) (fuel : Nat)
    (hhex : s.data.all is_hex_digit = true)
    (hne : s.data ≠ [])
    (hlen : s.data.length < 8) :
    stream_loop (fuel + 1) (s.data ++ '\n' :: rest) ctx
      = stream_loop fuel rest ctx := by
  have hrl : read_line 8192 (s.data ++ '\n' :: rest)
      = ((s.data.length : Int), s, rest) := by
    have h := read_line_go_append s.data rest []
      (fun c hc => is_hex_digit_not_ctrl c (List.all_eq_true.mp hhex c hc))
      (by simpa using hlen.trans (by norm_num))
    simpa [read_line] using h
  simp only [stream_loop, hrl]
  rw [if_neg (not_lt.mpr (Int.natCast_nonneg s.data.length))]
  rw [if_neg (fun hh => hne (List.length_eq_zero.mp hh))]
  rw [if_pos ⟨hhex, hlen⟩]

/-- Witness for C4 at the line "1a3" followed by a JSON line. -/
theorem hex_chunk_line_skipped_witness :
    ("1a3".data.all is_hex_digit = true)
    ∧ "1a3".data ≠ []
    ∧ "1a3".data.length < 8
    ∧ stream_loop 2 ("1a3".data ++ '\n' :: c3_extra.data) c3_ctx
        = stream_loop 1 c3_extra.data c3_ctx :=
  ⟨by decide, by decide, by decide,
   hex_chunk_line_skipped "1a3" c3_extra.data c3_ctx 1
     (by decide) (by decide) (by decide)⟩

/-- C7: on a TCP connection failure the request reaches the Failed terminal
state: submission succeeds (returns 0), the worker fires the error callback
with the connection-error message and nothing else, the error is retrievable,
`chat_get_response` returns nothing (the accumulator stays unset), and the
history gains the user message but no assistant message. -/
theorem connect_failure_terminal (ctx : ChatContext) (msg : String)
    (tcb dcb : Option Nat) (ecb u : Nat) (h : ctx.isDone = true) :
    (chat_send_async_core ctx msg tcb dcb (some ecb) u).2 = 0
    ∧ (worker_process NetResult.connectFail
        (chat_send_async_core ctx msg tcb dcb (some ecb) u).1).2
      = [ChatEvent.errorCb "Connection failed"]
    ∧ chat_get_error (some (worker_process NetResult.connectFail
        (chat_send_async_core ctx msg tcb dcb (some ecb) u).1).1)
      = some "Connection failed"
    ∧ chat_get_response (some (worker_process NetResult.connectFail
        (chat_send_async_core ctx msg tcb dcb (some ecb) u).1).1)
      = none
    ∧ (worker_process NetResult.connectFail
        (chat_send_async_core ctx msg tcb dcb (some ecb) u).1).1.messages
      = ctx.messages ++ [⟨"user", msg⟩]
    ∧ (worker_process NetResult.connectFail
        (chat_send_async_core ctx msg tcb dcb (some ecb) u).1).1.isDone = true := by
  refine ⟨?_, ?_, ?_, ?_, ?_, ?_⟩ <;>
    simp [chat_send_async_core, h, worker_process, add_message,
          chat_get_error, chat_get_response]

/-- Witness for C7 at a fresh idle context. -/
theorem connect_failure_terminal_witness :
    (fresh_context true none 0 none).isDone = true
    ∧ ((chat_send_async_core (fresh_context true none 0 none) "hello"
          none none (some 9) 0).2 = 0
    ∧ (worker_process NetResult.connectFail
        (chat_send_async_core (fresh_context true none 0 none) "hello"
          none none (some 9) 0).1).2
      = [ChatEvent.errorCb "Connection failed"]
    ∧ chat_get_error (some (worker_process NetResult.connectFail
        (chat_send_async_core (fresh_context true none 0 none) "hello"
          none none (some 9) 0).1).1)
      = some "Connection failed"
    ∧ chat_get_response (some (worker_process NetResult.connectFail
        (chat_send_async_core (fresh_context true none 0 none) "hello"
          none none (some 9) 0).1).1)
      = none
    ∧ (worker_process NetResult.connectFail
        (chat_send_async_core (fresh_context true none 0 none) "hello"
          none none (some 9) 0).1).1.messages
      = (fresh_context true none 0 none).messages ++ [⟨"user", "hello"⟩]
    ∧ (worker_process NetResult.connectFail
        (chat_send_async_core (fresh_context true none 0 none) "hello"
          none none (some 9) 0).1).1.isDone = true) :=
  ⟨rfl, connect_failure_terminal (fresh_context true none 0 none) "hello"
      none none 9 0 rfl⟩

/-- Per-call history accounting for `chat_send_blocking`: from an idle
context, one blocking call grows the history by 2 when it returns a response
(user message plus assistant message) and by 1 when it returns NULL (user
message only), and leaves the context idle again. -/
theorem chat_send_blocking_step (ctx : ChatContext) (msg : String)
    (tcb : Option Nat) (net : NetResult) (h : ctx.isDone = true) :
    (chat_send_blocking_core ctx msg tcb net).1.messages.length
      = ctx.messages.length
        + (if (chat_send_blocking_core ctx msg tcb net).2.isSome then 2 else 1)
    ∧ (chat_send_blocking_core ctx msg tcb net).1.isDone = true := by
  have hsub : chat_send_async_core ctx msg tcb none none 0
      = ({ ctx with
            isDone := false, fullResponse := none, errorMessage := none,
            tokenBuffer := [], onToken := tcb, onDone := none, onError := none,
            userData := 0, pendingMessage := some msg }, 0) := by
    simp [chat_send_async_core, h]
  cases net with
  | buildFail =>
    constructor <;>
      simp [chat_send_blocking_core, hsub, worker_process, add_message]
  | connectFail =>
    constructor <;>
      simp [chat_send_blocking_core, hsub, worker_process, add_message]
  | sendFail =>
    constructor <;>
      simp [chat_send_blocking_core, hsub, worker_process, add_message]
  | stream bytes =>
    obtain ⟨l, r, hw1, hw2, hne, hdata, hnone⟩ :=
      worker_stream_spec
        ({ ctx with
            isDone := false, fullResponse := none, errorMessage := none,
            tokenBuffer := [], onToken := tcb, onDone := none, onError := none,
            userData := 0, pendingMessage := some msg }) msg bytes rfl
    have hae : (assistantEntry r).length = if r.isSome then 1 else 0 := by
      rcases hr : r with _ | s
      · simp [assistantEntry]
      · have hl : l ≠ [] := by
          intro hl0
          rw [hr] at hnone
          simp [hl0] at hnone
        obtain ⟨t, l2, rfl⟩ := List.exists_cons_of_ne_nil hl
        have hs : s.data ≠ [] := by
          rw [hr] at hdata
          simp [concatTokens_cons, String.data_append] at hdata
          rw [hdata]
          intro happ
          exact hne t (List.mem_cons_self t l2) (List.append_eq_nil.mp happ).1
        have hsE : s.data.isEmpty = false := by
          rcases hx : s.data with _ | _
          · exact absurd hx hs
          · rfl
        simp [assistantEntry, hsE]
    constructor
    · simp only [chat_send_blocking_core, hsub, lt_self_iff_false, if_false]
      rw [hw1]
      simp [List.length_append, hae]
      rcases r with _ | s <;> simp
    · simp only [chat_send_blocking_core, hsub, lt_self_iff_false, if_false]
      rw [hw1]

/-- Sequence of blocking calls, each with its own message and network
outcome, returning the final context and each call's returned response. -/
def run_blocking_calls (ctx : ChatContext) :
    List (String × NetResult) → ChatContext × List (Option String)
  | [] => (ctx, [])
  | call :: rest =>
    let p := chat_send_blocking_core ctx call.1 none call.2
    let q := run_blocking_calls p.1 rest
    (q.1, p.2 :: q.2)

/-- C5: over any sequence of blocking calls from an idle context, the
history length grows by exactly 2 for every successful call (one that
returns a response) and by exactly 1 for every failed call (NULL result,
user message only). -/
theorem history_growth_per_blocking_call (calls : List (String × NetResult)) :
    ∀ ctx : ChatContext, ctx.isDone = true →
      (run_blocking_calls ctx calls).1.messages.length
        = ctx.messages.length
          + ((run_blocking_calls ctx calls).2.map
              (fun res => if res.isSome then 2 else 1)).sum := by
  induction calls with
  | nil => intro ctx h; simp [run_blocking_calls]
  | cons call rest ih =>
    intro ctx h
    obtain ⟨hlen, hdone⟩ := chat_send_blocking_step ctx call.1 none call.2 h
    have hrec := ih (chat_send_blocking_core ctx call.1 none call.2).1 hdone
    simp only [run_blocking_calls, List.map_cons, List.sum_cons]
    omega

/-- Witness for C5: a failed call then a successful call from a fresh
context. -/
theorem history_growth_per_blocking_call_witness :
    (fresh_context true none 0 none).isDone = true
    ∧ (run_blocking_calls (fresh_context true none 0 none)
        [("a", NetResult.connectFail),
         ("b", NetResult.stream c3_input.data)]).1.messages.length
      = (fresh_context true none 0 none).messages.length
        + ((run_blocking_calls (fresh_context true none 0 none)
            [("a", NetResult.connectFail),
             ("b", NetResult.stream c3_input.data)]).2.map
            (fun res => if res.isSome then 2 else 1)).sum :=
  ⟨rfl, history_growth_per_blocking_call
      [("a", NetResult.connectFail), ("b", NetResult.stream c3_input.data)]
      (fresh_context true none 0 none) rfl⟩
